import Mathlib

/-
Shallow embedding of `src/gekitchensdk/clients/base_client.py` (class
`GeBaseClient`): the connection-lifecycle state machine, the event
dispatch bus, and the retry/reconnect supervisor loop
(`async_run_client`).  Stateful Python methods become pure functions on
an explicit `GeBaseClient` record; the list of events published via
`async_event` is accumulated in an `_events` trace field.  The abstract
collaborator calls (`_async_run_client`, `async_do_refresh_login_flow`)
are parameters of the loop: each call either returns normally or raises,
after applying an arbitrary effect to the client state.
-/

/-- Modelled from the spec: the `GeClientState` enum imported from
`.states` (module not present under `src/`); spec section 3 lists the
seven values with initial `INITIALIZING` and terminal `DISCONNECTED`. -/
inductive GeClientState where
  | INITIALIZING
  | AUTHORIZING_OAUTH
  | WAITING
  | CONNECTED
  | DROPPED
  | DISCONNECTING
  | DISCONNECTED
deriving DecidableEq, Repr

/-- Modelled from the spec: the event-name constants imported from
`.const` (module not present under `src/`); spec section 6 fixes the
event vocabulary. -/
inductive EventName where
  | STATE_CHANGED
  | CONNECTED
  | DISCONNECTED
  | APPLIANCE_AVAILABLE
  | APPLIANCE_UNAVAILABLE
  | APPLIANCE_INITIAL_UPDATE
deriving DecidableEq, Repr

/-- A callback value stored in the event-handler registry.
`onStateChange` is the client's own `_on_state_change` bound method
(registered in `_initialize_event_handlers`, line 315);
`builtinCallable` is the Python builtin `callable` (referenced, by what
is evidently a slip, in `remove_event_handler`, line 122); `user n` is
any externally supplied subscriber. -/
inductive Callback where
  | onStateChange
  | builtinCallable
  | user (n : Nat)
deriving DecidableEq, Repr

/-- A published event together with its arguments, as produced by
`async_event(event, *args)` (line 110). -/
inductive GeEvent where
  | STATE_CHANGED (old new : GeClientState)
  | CONNECTED
  | DISCONNECTED
  | APPLIANCE_AVAILABLE (applianceId : Nat)
  | APPLIANCE_UNAVAILABLE (applianceId : Nat)
  | APPLIANCE_INITIAL_UPDATE (applianceId : Nat)
deriving DecidableEq, Repr

/-- The `_event_handlers` registry: `defaultdict(list)` keyed by event
name (line 314), one ordered callback list per event name. -/
structure Handlers where
  state_changed : List Callback
  connected : List Callback
  disconnected : List Callback
  appliance_available : List Callback
  appliance_unavailable : List Callback
  appliance_initial_update : List Callback
deriving DecidableEq, Repr

def Handlers.get (h : Handlers) : EventName → List Callback
  | EventName.STATE_CHANGED => h.state_changed
  | EventName.CONNECTED => h.connected
  | EventName.DISCONNECTED => h.disconnected
  | EventName.APPLIANCE_AVAILABLE => h.appliance_available
  | EventName.APPLIANCE_UNAVAILABLE => h.appliance_unavailable
  | EventName.APPLIANCE_INITIAL_UPDATE => h.appliance_initial_update

def Handlers.set (h : Handlers) (e : EventName) (l : List Callback) : Handlers :=
  match e with
  | EventName.STATE_CHANGED => { h with state_changed := l }
  | EventName.CONNECTED => { h with connected := l }
  | EventName.DISCONNECTED => { h with disconnected := l }
  | EventName.APPLIANCE_AVAILABLE => { h with appliance_available := l }
  | EventName.APPLIANCE_UNAVAILABLE => { h with appliance_unavailable := l }
  | EventName.APPLIANCE_INITIAL_UPDATE => { h with appliance_initial_update := l }

/-- Modelled from the spec: the `GeAppliance` availability flag
(`ge_appliance` module not present under `src/`); spec section 3 calls
it a "tracked availability flag" with setters `set_available` /
`set_unavailable` used at lines 298 and 301. -/
structure GeAppliance where
  applianceId : Nat
  available : Bool
deriving DecidableEq, Repr

/-- The mutable state of a `GeBaseClient` instance, restricted to the
fields the lifecycle core reads or writes (`__init__`, lines 49-65).
`_events` is the trace of events published so far.  The call counters
(`driveCalls`, `refreshCalls`, `disconnectRuns`, `sleptTime`) are
instrumentation recording, respectively, how many times the abstract
`_async_run_client` drive call was made (line 142), how many times
`async_do_refresh_login_flow` was called (line 156), how many times the
body of `disconnect` actually executed (lines 326-333), and the total
time slept in backoff (line 153). -/
structure GeBaseClient where
  _state : GeClientState
  _connected : Bool
  _disconnect_requested : Bool
  _retries_since_last_connect : Int
  _event_handlers : Handlers
  _events : List GeEvent
  driveCalls : Nat
  refreshCalls : Nat
  disconnectRuns : Nat
  sleptTime : Nat
deriving DecidableEq, Repr

/-- Events published by the internal listener `_on_state_change`
(lines 318-324) when invoked with `(old_state, new_state)`: it publishes
`EVENT_CONNECTED` when the new state is `CONNECTED` and
`EVENT_DISCONNECTED` when the new state is `DISCONNECTED`. -/
def _on_state_change (old_state new_state : GeClientState) : List GeEvent :=
  (if new_state = GeClientState.CONNECTED then [GeEvent.CONNECTED] else []) ++
  (if new_state = GeClientState.DISCONNECTED then [GeEvent.DISCONNECTED] else [])

/-- The events a registered callback publishes when it is dispatched a
`STATE_CHANGED(old, new)` event.  Only the internal `_on_state_change`
listener publishes further events on the bus; external subscribers are
opaque observers with no effect on the modelled core state. -/
def runCallback : Callback → GeClientState → GeClientState → List GeEvent
  | Callback.onStateChange, old_state, new_state => _on_state_change old_state new_state
  | _, _, _ => []

/-- Publication of one event on the bus, `async_event` (lines 110-113):
the event is recorded on the trace, and every callback registered for
its event name is scheduled.  Only `STATE_CHANGED` carries callbacks
with core-visible effects (the internal listener); the events those
callbacks publish in turn are appended to the trace. -/
def async_event (c : GeBaseClient) (ev : GeEvent) : GeBaseClient :=
  match ev with
  | GeEvent.STATE_CHANGED old_state new_state =>
      { c with _events := c._events ++ [ev] ++
          ((c._event_handlers.get EventName.STATE_CHANGED).map
            (fun cb => runCallback cb old_state new_state)).flatten }
  | _ => { c with _events := c._events ++ [ev] }

/-- `_set_state` (lines 304-311): if the new state differs from the
current one, mutate the state, publish `STATE_CHANGED(old, new)` and
return `True`; otherwise return `False` without publishing. -/
def _set_state (c : GeBaseClient) (new_state : GeClientState) : GeBaseClient × Bool :=
  if c._state ≠ new_state then
    (async_event { c with _state := new_state }
      (GeEvent.STATE_CHANGED c._state new_state), true)
  else
    (c, false)

/-- `add_event_handler` (lines 115-118), `disposable=False` path:
appends the callback to the event's ordered list.  (The
`disposable=True` path raises `NotImplementedError` and is not part of
any claim.) -/
def add_event_handler (c : GeBaseClient) (event : EventName) (callback : Callback) : GeBaseClient :=
  { c with _event_handlers :=
      c._event_handlers.set event (c._event_handlers.get event ++ [callback]) }

/-- `remove_event_handler` (lines 120-124).  The body executes
`self.event_handlers[event].remove(callable)` — the Python builtin
`callable`, not the `callback` parameter.  `list.remove` deletes the
first element equal to its argument and raises `ValueError` when none
matches; the bare `except` swallows the error and logs a warning.  The
`callback` parameter is therefore never consulted. -/
def remove_event_handler (c : GeBaseClient) (event : EventName) (callback : Callback) : GeBaseClient :=
  if Callback.builtinCallable ∈ c._event_handlers.get event then
    { c with _event_handlers :=
        (c._event_handlers.set event ((c._event_handlers.get event).erase Callback.builtinCallable)) }
  else
    c

/-- `_initialize_event_handlers` (lines 313-316): a fresh
`defaultdict(list)` registry holding only the internal
`_on_state_change` listener under `EVENT_STATE_CHANGED`. -/
def initHandlers : Handlers :=
  { state_changed := [Callback.onStateChange]
    connected := []
    disconnected := []
    appliance_available := []
    appliance_unavailable := []
    appliance_initial_update := [] }

/-- The client state right after `__init__` (lines 49-65): state
`INITIALIZING`, not connected, no disconnect requested, retry counter at
the -1 sentinel, and the freshly initialized handler registry. -/
def initClient : GeBaseClient :=
  { _state := GeClientState.INITIALIZING
    _connected := false
    _disconnect_requested := false
    _retries_since_last_connect := -1
    _event_handlers := initHandlers
    _events := []
    driveCalls := 0
    refreshCalls := 0
    disconnectRuns := 0
    sleptTime := 0 }

/-- The `connected` property (lines 96-99):
`self._state not in [DISCONNECTING, DISCONNECTED]`. -/
def connected (c : GeBaseClient) : Bool :=
  !(c._state == GeClientState.DISCONNECTING || c._state == GeClientState.DISCONNECTED)

/-- The `available` property (lines 101-104):
`self._state == GeClientState.CONNECTED`. -/
def available (c : GeBaseClient) : Bool :=
  c._state == GeClientState.CONNECTED

/-- `_set_appliance_availability` (lines 296-302): flips the
appliance's availability flag and publishes the matching event only
when the requested value differs from the current flag. -/
def _set_appliance_availability (c : GeBaseClient) (appliance : GeAppliance)
    (available : Bool) : GeBaseClient × GeAppliance :=
  if available && !appliance.available then
    (async_event c (GeEvent.APPLIANCE_AVAILABLE appliance.applianceId),
      { appliance with available := true })
  else if !available && appliance.available then
    (async_event c (GeEvent.APPLIANCE_UNAVAILABLE appliance.applianceId),
      { appliance with available := false })
  else
    (c, appliance)

/-- `disconnect` (lines 326-333): transition to `DISCONNECTING`, set
`_disconnect_requested`, clear `_connected`, call the abstract
`_disconnect` teardown hook (no core-visible state), then transition to
`DISCONNECTED`.  `disconnectRuns` counts executions of this body. -/
def disconnect (c : GeBaseClient) : GeBaseClient :=
  let c0 := { c with disconnectRuns := c.disconnectRuns + 1 }
  let c1 := (_set_state c0 GeClientState.DISCONNECTING).1
  let c2 := { c1 with _disconnect_requested := true, _connected := false }
  (_set_state c2 GeClientState.DISCONNECTED).1

/-- `_set_connected` (lines 335-337): reset the retry counter to the -1
sentinel and transition to `CONNECTED`. -/
def _set_connected (c : GeBaseClient) : GeBaseClient :=
  (_set_state { c with _retries_since_last_connect := -1 } GeClientState.CONNECTED).1

/-- Line 153 executes `asyncio.sleep(5)` without `await`: the coroutine
object is created and discarded, so no suspension and no delay occurs —
the elapsed backoff time contributed by that line is 0 time units. -/
def backoffSleepElapsed : Nat := 0

/-- Line 162 executes `self.disconnect()` without `await`: `disconnect`
is an `async def`, so the returned coroutine is never run and the
disconnect body has no effect on the client. -/
def disconnect_unawaited (c : GeBaseClient) : GeBaseClient := c

/-- The outcome of one call to an abstract collaborator routine
(`_async_run_client` or `async_do_refresh_login_flow`): the call applies
some effect `f` to the client state (these routines may themselves call
`_set_connected`, `disconnect`, etc. on `self`) and then either returns
normally (`ok`) or raises (`raises`). -/
inductive CallResult where
  | ok (f : GeBaseClient → GeBaseClient)
  | raises (f : GeBaseClient → GeBaseClient)

def callEffect : CallResult → GeBaseClient → GeBaseClient
  | CallResult.ok f, c => f c
  | CallResult.raises f, c => f c

def callRaises : CallResult → Bool
  | CallResult.ok _ => false
  | CallResult.raises _ => true

/-- One iteration of the supervisor loop body of `async_run_client`
(lines 141-159), entered after the top-of-loop guards have passed.
Returns the client state at the end of the iteration and whether the
loop breaks afterwards.  Python control flow modelled exactly:

* the drive call (line 142) is made; if it raises, the `except` block
  sets a pending `break` exactly when the retry counter (as left by the
  drive call's effects) equals -1 (lines 143-147);
* the `finally` block (lines 148-159) runs even on a pending `break`:
  transition to `DROPPED`; if disconnect was not requested, transition
  to `WAITING`, create-but-never-await `asyncio.sleep(5)` (zero elapsed
  time), and call the refresh login — if the refresh raises, its
  `except: break` exits the loop at once, skipping the counter
  increment; otherwise the counter is incremented (line 159) and any
  pending `break` then takes effect. -/
def runIteration (c : GeBaseClient) (drive refresh : CallResult) : GeBaseClient × Bool :=
  let cd := callEffect drive { c with driveCalls := c.driveCalls + 1 }
  let pendingBreak := callRaises drive && (cd._retries_since_last_connect == -1)
  let c1 := (_set_state cd GeClientState.DROPPED).1
  if c1._disconnect_requested then
    ({ c1 with _retries_since_last_connect := c1._retries_since_last_connect + 1 },
      pendingBreak)
  else
    let c2 := (_set_state c1 GeClientState.WAITING).1
    let c3 := { c2 with sleptTime := c2.sleptTime + backoffSleepElapsed }
    let c4 := callEffect refresh { c3 with refreshCalls := c3.refreshCalls + 1 }
    if callRaises refresh then
      (c4, true)
    else
      ({ c4 with _retries_since_last_connect := c4._retries_since_last_connect + 1 },
        pendingBreak)

/-- The supervisor `while` loop (lines 138-159).  `env i` supplies the
outcomes of the drive call and the refresh call of iteration `i`.
`fuel` bounds the number of iterations examined: `none` means the loop
was still running when fuel ran out, `some c` means the loop exited
(by the `while` condition or by a `break`) leaving client state `c`. -/
def runLoopAux (maxRetries : Int) (env : Nat → CallResult × CallResult) :
    Nat → Nat → GeBaseClient → Option GeBaseClient
  | 0, _, _ => none
  | fuel + 1, i, c =>
    if c._disconnect_requested then
      some c
    else if c._retries_since_last_connect > maxRetries then
      some c
    else
      let p := env i
      let r := runIteration c p.1 p.2
      if r.2 then some r.1 else runLoopAux maxRetries env fuel (i + 1) r.1

/-- `async_run_client` (lines 134-162): clear the disconnect-requested
flag, run the supervisor loop, and finally execute line 162 — the
un-awaited `self.disconnect()` call, which has no effect.  `maxRetries`
stands for the configured `MAX_RETRIES` constant (imported from
`.const`, not present under `src/`). -/
def async_run_client (maxRetries : Int) (env : Nat → CallResult × CallResult)
    (fuel : Nat) (c : GeBaseClient) : Option GeBaseClient :=
  (runLoopAux maxRetries env fuel 0 { c with _disconnect_requested := false }).map
    disconnect_unawaited

/-- The subsequence of `STATE_CHANGED` events in a trace, as
(old, new) pairs. -/
def stateChangedEvents (l : List GeEvent) : List (GeClientState × GeClientState) :=
  l.filterMap (fun ev =>
    match ev with
    | GeEvent.STATE_CHANGED o n => some (o, n)
    | _ => none)

/-- A collaborator effect that never touches the retry counter. -/
def preservesRetries (f : GeBaseClient → GeBaseClient) : Prop :=
  ∀ c, (f c)._retries_since_last_connect = c._retries_since_last_connect

def callPreservesRetries : CallResult → Prop
  | CallResult.ok f => preservesRetries f
  | CallResult.raises f => preservesRetries f

/-- Environment of spec Scenario A: the very first drive call raises,
every refresh-login succeeds; neither call has further state effects. -/
def envScenarioA : Nat → CallResult × CallResult :=
  fun _ => (CallResult.raises id, CallResult.ok id)

/-- Environment of spec Scenario C (with `maxRetries = 1`): the first
drive call connects successfully (`_set_connected`) and returns, every
later drive call raises, every refresh-login succeeds. -/
def envScenarioC : Nat → CallResult × CallResult :=
  fun i =>
    if i = 0 then (CallResult.ok _set_connected, CallResult.ok id)
    else (CallResult.raises id, CallResult.ok id)

theorem async_event_state (c : GeBaseClient) (ev : GeEvent) :
    (async_event c ev)._state = c._state := by
  cases ev <;> rfl

theorem async_event_retries (c : GeBaseClient) (ev : GeEvent) :
    (async_event c ev)._retries_since_last_connect = c._retries_since_last_connect := by
  cases ev <;> rfl

theorem async_event_handlers (c : GeBaseClient) (ev : GeEvent) :
    (async_event c ev)._event_handlers = c._event_handlers := by
  cases ev <;> rfl

theorem _set_state_retries (c : GeBaseClient) (s : GeClientState) :
    ((_set_state c s).1)._retries_since_last_connect = c._retries_since_last_connect := by
  by_cases h : c._state = s
  · simp [_set_state, h]
  · simp [_set_state, h, async_event_retries]

theorem _set_state_state (c : GeBaseClient) (s : GeClientState) :
    ((_set_state c s).1)._state = s := by
  by_cases h : c._state = s
  · simp [_set_state, h]
  · simp [_set_state, h, async_event_state]

theorem disconnect_retries (c : GeBaseClient) :
    (disconnect c)._retries_since_last_connect = c._retries_since_last_connect := by
  simp [disconnect, _set_state_retries]

theorem stateChangedEvents_append (l1 l2 : List GeEvent) :
    stateChangedEvents (l1 ++ l2) = stateChangedEvents l1 ++ stateChangedEvents l2 := by
  simp [stateChangedEvents]

theorem stateChangedEvents_runCallback (cb : Callback) (o n : GeClientState) :
    stateChangedEvents (runCallback cb o n) = [] := by
  cases cb with
  | onStateChange => cases n <;> rfl
  | builtinCallable => rfl
  | user k => rfl

theorem stateChangedEvents_callbacks (hs : List Callback) (o n : GeClientState) :
    stateChangedEvents ((hs.map (fun cb => runCallback cb o n)).flatten) = [] := by
  induction hs with
  | nil => rfl
  | cons cb t ih =>
      simp [stateChangedEvents_append, stateChangedEvents_runCallback, ih]

theorem runIteration_retries (c : GeBaseClient) (drive refresh : CallResult)
    (hd : callPreservesRetries drive) (hr : callPreservesRetries refresh) :
    ((runIteration c drive refresh).1)._retries_since_last_connect =
        c._retries_since_last_connect ∨
    ((runIteration c drive refresh).1)._retries_since_last_connect =
        c._retries_since_last_connect + 1 := by
  cases drive with
  | ok f =>
    have hd' : ∀ x, (f x)._retries_since_last_connect = x._retries_since_last_connect := hd
    cases refresh with
    | ok g =>
      have hr' : ∀ x, (g x)._retries_since_last_connect = x._retries_since_last_connect := hr
      simp only [runIteration, callEffect, callRaises]
      split
      · right; simp [_set_state_retries, hd']
      · right; simp [_set_state_retries, hd', hr']
    | raises g =>
      have hr' : ∀ x, (g x)._retries_since_last_connect = x._retries_since_last_connect := hr
      simp only [runIteration, callEffect, callRaises]
      split
      · right; simp [_set_state_retries, hd']
      · left; simp [_set_state_retries, hd', hr']
  | raises f =>
    have hd' : ∀ x, (f x)._retries_since_last_connect = x._retries_since_last_connect := hd
    cases refresh with
    | ok g =>
      have hr' : ∀ x, (g x)._retries_since_last_connect = x._retries_since_last_connect := hr
      simp only [runIteration, callEffect, callRaises]
      split
      · right; simp [_set_state_retries, hd']
      · right; simp [_set_state_retries, hd', hr']
    | raises g =>
      have hr' : ∀ x, (g x)._retries_since_last_connect = x._retries_since_last_connect := hr
      simp only [runIteration, callEffect, callRaises]
      split
      · right; simp [_set_state_retries, hd']
      · left; simp [_set_state_retries, hd', hr']

/-- C3: every `_set_state` call with a state different from the current
one mutates the state, reports a change (`True`) and publishes exactly
one `STATE_CHANGED` event carrying the correct (old, new) pair; a call
with the current state reports unchanged (`False`), publishes nothing
and leaves the client unmodified. -/
theorem c3_set_state_publishes_exactly_one_change (c : GeBaseClient)
    (new_state : GeClientState) :
    (c._state ≠ new_state →
      (_set_state c new_state).2 = true ∧
      ((_set_state c new_state).1)._state = new_state ∧
      stateChangedEvents ((_set_state c new_state).1)._events =
        stateChangedEvents c._events ++ [(c._state, new_state)]) ∧
    (c._state = new_state →
      (_set_state c new_state).2 = false ∧ (_set_state c new_state).1 = c) := by
  constructor
  · intro h
    refine ⟨by simp [_set_state, h], _set_state_state c new_state, ?_⟩
    have hev : ((_set_state c new_state).1)._events =
        c._events ++ [GeEvent.STATE_CHANGED c._state new_state] ++
          ((c._event_handlers.get EventName.STATE_CHANGED).map
            (fun cb => runCallback cb c._state new_state)).flatten := by
      simp [_set_state, h, async_event]
    rw [hev, stateChangedEvents_append, stateChangedEvents_append,
      stateChangedEvents_callbacks]
    simp [stateChangedEvents]
  · intro h
    simp [_set_state, h]

/-- Witness for C3 at a concrete input: changing `INITIALIZING` to
`CONNECTED` publishes exactly the pair (INITIALIZING, CONNECTED), and
setting `INITIALIZING` again reports unchanged. -/
theorem c3_witness :
    stateChangedEvents ((_set_state initClient GeClientState.CONNECTED).1)._events =
      [(GeClientState.INITIALIZING, GeClientState.CONNECTED)] ∧
    (_set_state initClient GeClientState.INITIALIZING).2 = false := by
  constructor
  · have h :=
      (c3_set_state_publishes_exactly_one_change initClient GeClientState.CONNECTED).1
        (by decide)
    simpa [stateChangedEvents] using h.2.2
  · exact ((c3_set_state_publishes_exactly_one_change initClient
      GeClientState.INITIALIZING).2 rfl).1

/-- C4: with the internal `_on_state_change` listener registered under
`STATE_CHANGED` (as `_initialize_event_handlers` does), every transition
into `CONNECTED` publishes both a `STATE_CHANGED` event and a
`CONNECTED` event, and every transition into `DISCONNECTED` publishes
both a `STATE_CHANGED` event and a `DISCONNECTED` event. -/
theorem c4_lifecycle_events (c : GeBaseClient)
    (hreg : c._event_handlers.get EventName.STATE_CHANGED = [Callback.onStateChange]) :
    (c._state ≠ GeClientState.CONNECTED →
      ((_set_state c GeClientState.CONNECTED).1)._events =
        c._events ++ [GeEvent.STATE_CHANGED c._state GeClientState.CONNECTED,
          GeEvent.CONNECTED]) ∧
    (c._state ≠ GeClientState.DISCONNECTED →
      ((_set_state c GeClientState.DISCONNECTED).1)._events =
        c._events ++ [GeEvent.STATE_CHANGED c._state GeClientState.DISCONNECTED,
          GeEvent.DISCONNECTED]) := by
  constructor <;> intro h <;>
    simp [_set_state, h, async_event, hreg, runCallback, _on_state_change]

/-- Witness for C4 at a concrete input: the fresh client transitioning
into `CONNECTED` and into `DISCONNECTED`. -/
theorem c4_witness :
    ((_set_state initClient GeClientState.CONNECTED).1)._events =
      [GeEvent.STATE_CHANGED GeClientState.INITIALIZING GeClientState.CONNECTED,
        GeEvent.CONNECTED] ∧
    ((_set_state initClient GeClientState.DISCONNECTED).1)._events =
      [GeEvent.STATE_CHANGED GeClientState.INITIALIZING GeClientState.DISCONNECTED,
        GeEvent.DISCONNECTED] := by
  constructor
  · have h := (c4_lifecycle_events initClient (by decide)).1 (by decide)
    simpa using h
  · have h := (c4_lifecycle_events initClient (by decide)).2 (by decide)
    simpa using h

/-- C5 is false as stated: calling `disconnect` on a client that is
already `DISCONNECTED` is not a no-op — it publishes additional events
(two `STATE_CHANGED` and one `DISCONNECTED`), because the transition
`DISCONNECTED → DISCONNECTING` is a genuine state change. -/
theorem c5_counterexample :
    (disconnect (disconnect initClient))._events ≠ (disconnect initClient)._events := by
  decide

/-- C5 amended: calling `disconnect` when the state is already
`DISCONNECTED` (with the internal listener registered) is safe and
leaves the final state `DISCONNECTED`, but its transitions are not
no-ops: the client re-enters `DISCONNECTING` and returns to
`DISCONNECTED`, publishing exactly two further `STATE_CHANGED` events
and one further `DISCONNECTED` lifecycle event. -/
theorem c5_amended_disconnect_when_disconnected (c : GeBaseClient)
    (hs : c._state = GeClientState.DISCONNECTED)
    (hreg : c._event_handlers.get EventName.STATE_CHANGED = [Callback.onStateChange]) :
    (disconnect c)._state = GeClientState.DISCONNECTED ∧
    (disconnect c)._events = c._events ++
      [GeEvent.STATE_CHANGED GeClientState.DISCONNECTED GeClientState.DISCONNECTING,
        GeEvent.STATE_CHANGED GeClientState.DISCONNECTING GeClientState.DISCONNECTED,
        GeEvent.DISCONNECTED] := by
  have e1 : ∀ o, _on_state_change o GeClientState.DISCONNECTING = [] := fun _ => rfl
  have e2 : ∀ o, _on_state_change o GeClientState.DISCONNECTED =
      [GeEvent.DISCONNECTED] := fun _ => rfl
  have hne1 : GeClientState.DISCONNECTED ≠ GeClientState.DISCONNECTING := by decide
  have hne2 : GeClientState.DISCONNECTING ≠ GeClientState.DISCONNECTED := by decide
  constructor <;>
    simp [disconnect, _set_state, async_event, hs, hreg, hne1, hne2,
      runCallback, e1, e2]

/-- Witness for C5's amended theorem at a concrete input: a client that
has just been disconnected. -/
theorem c5_witness :
    (disconnect (disconnect initClient))._state = GeClientState.DISCONNECTED ∧
    (disconnect (disconnect initClient))._events = (disconnect initClient)._events ++
      [GeEvent.STATE_CHANGED GeClientState.DISCONNECTED GeClientState.DISCONNECTING,
        GeEvent.STATE_CHANGED GeClientState.DISCONNECTING GeClientState.DISCONNECTED,
        GeEvent.DISCONNECTED] :=
  c5_amended_disconnect_when_disconnected (disconnect initClient) (by decide) (by decide)

/-- C7 is contradicted by the code: `remove_event_handler` removes the
Python builtin `callable` rather than the `callback` parameter (line
122), so unsubscribing a callback that was just registered leaves it
registered (the `ValueError` is swallowed and a warning logged).  The
theorem evaluates the code at the failing input: after subscribing
`user 0` to `CONNECTED` and then unsubscribing that same callback, the
subscriber list for `CONNECTED` still contains it, and every other
event's subscriber list is unchanged. -/
theorem c7_remove_event_handler_eval :
    (remove_event_handler
        (add_event_handler initClient EventName.CONNECTED (Callback.user 0))
        EventName.CONNECTED (Callback.user 0))._event_handlers =
      (add_event_handler initClient EventName.CONNECTED
        (Callback.user 0))._event_handlers ∧
    ((add_event_handler initClient EventName.CONNECTED
        (Callback.user 0))._event_handlers.get EventName.CONNECTED =
      [Callback.user 0]) := by
  decide

/-- C9: setting an appliance's availability publishes
`APPLIANCE_AVAILABLE` exactly on a false→true flip and
`APPLIANCE_UNAVAILABLE` exactly on a true→false flip, exactly once per
flip; setting availability to its current value publishes no event and
changes nothing. -/
theorem c9_availability_flip_events (c : GeBaseClient) (appliance : GeAppliance)
    (b : Bool) :
    (b = true → appliance.available = false →
      (_set_appliance_availability c appliance b).2.available = true ∧
      ((_set_appliance_availability c appliance b).1)._events =
        c._events ++ [GeEvent.APPLIANCE_AVAILABLE appliance.applianceId]) ∧
    (b = false → appliance.available = true →
      (_set_appliance_availability c appliance b).2.available = false ∧
      ((_set_appliance_availability c appliance b).1)._events =
        c._events ++ [GeEvent.APPLIANCE_UNAVAILABLE appliance.applianceId]) ∧
    (b = appliance.available →
      _set_appliance_availability c appliance b = (c, appliance)) := by
  refine ⟨?_, ?_, ?_⟩
  · intro hb ha
    subst hb
    simp [_set_appliance_availability, ha, async_event]
  · intro hb ha
    subst hb
    simp [_set_appliance_availability, ha, async_event]
  · intro hb
    subst hb
    cases hav : appliance.available <;>
      simp [_set_appliance_availability, hav]

/-- Witness for C9 at concrete inputs: flipping an unavailable
appliance to available publishes the event once, and re-setting an
available appliance to available publishes nothing. -/
theorem c9_witness :
    (_set_appliance_availability initClient ⟨7, false⟩ true).2.available = true ∧
    ((_set_appliance_availability initClient ⟨7, false⟩ true).1)._events =
      [GeEvent.APPLIANCE_AVAILABLE 7] ∧
    _set_appliance_availability initClient ⟨7, true⟩ true =
      (initClient, ⟨7, true⟩) := by
  refine ⟨?_, ?_, ?_⟩
  · exact ((c9_availability_flip_events initClient ⟨7, false⟩ true).1 rfl rfl).1
  · have h := ((c9_availability_flip_events initClient ⟨7, false⟩ true).1 rfl rfl).2
    simpa using h
  · exact (c9_availability_flip_events initClient ⟨7, true⟩ true).2.2 rfl

/-- C10: the `connected` property is true exactly when the state is
neither `DISCONNECTING` nor `DISCONNECTED`; a freshly constructed
client is in `INITIALIZING`, so it already reports `connected = true`
while `available` is false, and `available` is true exactly in state
`CONNECTED`. -/
theorem c10_connected_available_props :
    (∀ c : GeBaseClient, connected c = true ↔
      (c._state ≠ GeClientState.DISCONNECTING ∧
        c._state ≠ GeClientState.DISCONNECTED)) ∧
    initClient._state = GeClientState.INITIALIZING ∧
    connected initClient = true ∧
    available initClient = false ∧
    (∀ c : GeBaseClient, available c = true ↔ c._state = GeClientState.CONNECTED) := by
  refine ⟨?_, rfl, rfl, rfl, ?_⟩
  · intro c
    simp [connected, not_or]
  · intro c
    simp [available]

/-- Witness for C10 at a concrete input. -/
theorem c10_witness :
    connected initClient = true ∧ available initClient = false :=
  ⟨(c10_connected_available_props.1 initClient).mpr (by decide),
    c10_connected_available_props.2.2.2.1⟩

/-- C8: `_set_connected` resets the retry counter to -1 and transitions
the state to `CONNECTED`, and it is the only core operation that resets
the counter to -1 after construction: `_set_state`, `disconnect`,
`_set_appliance_availability`, `add_event_handler` and
`remove_event_handler` all leave the counter unchanged, and a supervisor
loop iteration whose collaborator calls do not touch the counter can end
with the counter at -1 only if it already was -1 (the loop itself only
increments, never resets). -/
theorem c8_only_set_connected_resets_retries :
    (∀ c : GeBaseClient, (_set_connected c)._retries_since_last_connect = -1 ∧
      (_set_connected c)._state = GeClientState.CONNECTED) ∧
    (∀ (c : GeBaseClient) (s : GeClientState),
      ((_set_state c s).1)._retries_since_last_connect =
        c._retries_since_last_connect) ∧
    (∀ c : GeBaseClient,
      (disconnect c)._retries_since_last_connect = c._retries_since_last_connect) ∧
    (∀ (c : GeBaseClient) (a : GeAppliance) (b : Bool),
      ((_set_appliance_availability c a b).1)._retries_since_last_connect =
        c._retries_since_last_connect) ∧
    (∀ (c : GeBaseClient) (e : EventName) (cb : Callback),
      (add_event_handler c e cb)._retries_since_last_connect =
          c._retries_since_last_connect ∧
      (remove_event_handler c e cb)._retries_since_last_connect =
          c._retries_since_last_connect) ∧
    (∀ (c : GeBaseClient) (drive refresh : CallResult),
      callPreservesRetries drive → callPreservesRetries refresh →
      -1 ≤ c._retries_since_last_connect →
      ((runIteration c drive refresh).1)._retries_since_last_connect = -1 →
      c._retries_since_last_connect = -1) := by
  refine ⟨?_, ?_, ?_, ?_, ?_, ?_⟩
  · intro c
    exact ⟨by simp [_set_connected, _set_state_retries],
      by simp [_set_connected, _set_state_state]⟩
  · exact _set_state_retries
  · exact disconnect_retries
  · intro c a b
    cases b <;> cases hav : a.available <;>
      simp [_set_appliance_availability, hav, async_event_retries]
  · intro c e cb
    constructor
    · rfl
    · unfold remove_event_handler
      split <;> rfl
  · intro c drive refresh hd hr hge hres
    rcases runIteration_retries c drive refresh hd hr with h | h <;>
      rw [h] at hres <;> omega

/-- Witness for C8 at concrete inputs: an iteration (drive succeeds,
refresh raises, neither touching the counter) that ends with the
counter at -1 started with it at -1, and `_set_connected` on the fresh
client yields counter -1 in state `CONNECTED`. -/
theorem c8_witness :
    initClient._retries_since_last_connect = -1 ∧
    (_set_connected initClient)._retries_since_last_connect = -1 ∧
    (_set_connected initClient)._state = GeClientState.CONNECTED :=
  ⟨c8_only_set_connected_resets_retries.2.2.2.2.2 initClient
      (CallResult.ok id) (CallResult.raises id)
      (fun _ => rfl) (fun _ => rfl) (by decide) (by decide),
    (c8_only_set_connected_resets_retries.1 initClient).1,
    (c8_only_set_connected_resets_retries.1 initClient).2⟩

/-- C1 is contradicted by the code.  Scenario A input: fresh client, the
very first drive call raises, refresh-login succeeds.  Python's
`finally` block runs even though the `except` block issued `break`, so
the supervisor still transitions to `WAITING`, attempts the refresh
login once (`refreshCalls = 1`), and increments the retry counter to 0
before the pending break aborts the loop; the final line's un-awaited
`self.disconnect()` never runs (`disconnectRuns = 0`), leaving the final
state `WAITING` — not `DISCONNECTED` — with `connected` still true. -/
theorem c1_first_attempt_failure_eval :
    (async_run_client 5 envScenarioA 10 initClient).map
      (fun c => (c._state, c._retries_since_last_connect, c.refreshCalls,
        c.disconnectRuns, connected c)) =
      some (GeClientState.WAITING, 0, 1, 0, true) := by
  decide

/-- C2 is contradicted by the code.  Scenario C input with
`maxRetries = 1`: the first drive call connects (`_set_connected`) and
returns, later drive calls raise, refresh-logins succeed.  The loop does
exit once the counter exceeds the maximum (three drive calls total,
counter 2), but line 162 calls `self.disconnect()` without `await`, so
the disconnect body never executes (`disconnectRuns = 0`): no
`DISCONNECTING`/`DISCONNECTED` transition happens, the final state is
`WAITING`, and `connected` still reports true. -/
theorem c2_retry_exhaustion_eval :
    (async_run_client 1 envScenarioC 10 initClient).map
      (fun c => (c._state, c._retries_since_last_connect, c.driveCalls,
        c.disconnectRuns, connected c)) =
      some (GeClientState.WAITING, 2, 3, 0, true) := by
  decide

/-- C6 is contradicted by the code on its sleep conjunct.  In an
iteration whose drive call has ended with disconnect not requested, the
supervisor does transition to `WAITING` and does attempt the refresh
login (aborting the loop if the refresh raises), but line 153 calls
`asyncio.sleep(5)` without `await`, so zero time elapses before the
refresh — the claimed 5-unit backoff sleep never happens. -/
theorem c6_no_backoff_sleep_eval :
    backoffSleepElapsed = 0 ∧
    ((runIteration initClient (CallResult.raises id) (CallResult.ok id)).1).sleptTime
      = 0 ∧
    GeEvent.STATE_CHANGED GeClientState.DROPPED GeClientState.WAITING ∈
      ((runIteration initClient (CallResult.raises id) (CallResult.ok id)).1)._events ∧
    ((runIteration initClient (CallResult.raises id) (CallResult.ok id)).1).refreshCalls
      = 1 ∧
    (runIteration initClient (CallResult.raises id) (CallResult.raises id)).2 = true := by
  decide
